import Mathlib

/-!
# User routes of `next-u-backend` (`src/routes/user.js`)

A shallow embedding of the five route handlers registered by
`src/routes/user.js` and the properties of their request/response contracts.

The handlers are asynchronous JavaScript functions that talk to the `user`
table through the `database` query builder and to three credential utilities
(`hashString`, `stringIsAMatch`, `generateToken`).  Each handler is embedded as
a function from the state of the outside world before the request to the
handler's outcome (the value it returns, or the error it throws) together with
the state of the world afterwards.

The request bodies of `POST /api/users` and `POST /api/users/login` are taken
in the shape the handlers destructure (`req.body.user` with string fields);
the body of `PUT /api/user` is an arbitrary JavaScript value.  The handler of
`GET /api/user` is embedded for requests that passed the `validateToken`
pre-handler, which is where `req.userId` comes from.
-/

namespace NextU

/-! ## Values, rows and the outside world -/

/-- JavaScript values as they occur in request and reply payloads. -/
inductive JsVal where
  | undefined
  | null
  | bool (b : Bool)
  | num (n : Int)
  | str (s : String)
  | arr (items : List JsVal)
  | obj (fields : List (String × JsVal))

/-- A record of the `user` table. -/
structure Row where
  id : Nat
  username : String
  email : String
  password : String
  token : String
  bio : Option String
  image : Option String

/-- The object literal handed to `database('user').insert(...)`. -/
structure NewUser where
  username : String
  email : String
  password : String
  token : String

/-- The calls a handler can issue on the `user` table. -/
inductive Query where
  | firstWhereId (id : Nat)
  | firstWhereEmail (email : String)
  | firstProfileWhereUsername (username : String)
  | insert (values : NewUser)

/-- What an `await` can throw inside a handler. -/
inductive Fault where
  | typeError
  | uniqueViolation

/-- The world outside a handler: the rows of the `user` table, the calls
issued on the table so far (oldest first), and how many times `generateToken`
has been called. -/
structure World where
  rows : List Row
  log : List Query
  tokenCalls : Nat

/-- The credential utilities imported from `../utils/index`.  `generateToken`
takes no argument in JavaScript and may answer differently on every call, so
its result is indexed by the number of calls made before. -/
structure Utils where
  hashString : String → String
  stringIsAMatch : String → String → Bool
  generateToken : Nat → String

/-- What a handler hands back to the framework: the status code set on
`reply` (200 unless the handler changes it) and the value it returns. -/
structure Reply where
  statusCode : Nat
  payload : JsVal

/-- A handler step: it may throw, and it may change the world. -/
abbrev Handler (α : Type) : Type := World → Except Fault α × World

/-- Outcome of a handler step that returns `a`. -/
def Handler.ret {α : Type} (a : α) : Handler α := fun w => (.ok a, w)

/-- Outcome of a handler step that throws `e`. -/
def Handler.throw {α : Type} (e : Fault) : Handler α := fun w => (.error e, w)

/-- Sequencing of `await`ed steps: a thrown error skips the rest. -/
def Handler.andThen {α β : Type} (m : Handler α) (f : α → Handler β) : Handler β :=
  fun w =>
    match m w with
    | (.ok a, w1) => f a w1
    | (.error e, w1) => (.error e, w1)

instance : Monad Handler where
  pure := Handler.ret
  bind := Handler.andThen

/-! ## The query builder and the utilities -/

/-- Modelled from the spec: `../utils/database` is not part of `src/`.  The
call `database('user').where(cond).first()` fetches "the single User row
matching" the condition and "returns nothing" when no row matches: the first
row that meets the condition, or `undefined` (here `none`). -/
def whereFirst (q : Query) (cond : Row → Bool) : Handler (Option Row) :=
  fun w => (.ok (w.rows.find? cond), { w with log := w.log ++ [q] })

/-- Modelled from the spec: `id` is a "unique surrogate identifier, assigned
at creation"; the next inserted row gets an identifier above all stored ones. -/
def freshId (rows : List Row) : Nat :=
  (rows.map Row.id).foldr max 0 + 1

/-- Modelled from the spec: the schema of the `user` table is not part of
`src/`.  The spec gives `user(id PK, username UNIQUE, email UNIQUE, password,
token, bio, image)` with uniqueness "enforced by the store": the call
`database('user').insert(values)` throws when a row with the same username or
the same email exists and leaves the table as it was, and otherwise appends a
row with a new identifier and no `bio` or `image`. -/
def insert (values : NewUser) : Handler Unit :=
  fun w =>
    let w1 := { w with log := w.log ++ [Query.insert values] }
    if w.rows.any (fun r => r.username == values.username || r.email == values.email) then
      (.error .uniqueViolation, w1)
    else
      (.ok (),
        { w1 with
          rows := w.rows ++
            [{ id := freshId w.rows, username := values.username, email := values.email,
               password := values.password, token := values.token,
               bio := none, image := none }] })

/-- The call `generateToken()`, with the utility taken as a parameter. -/
def generateToken (u : Utils) : Handler String :=
  fun w => (.ok (u.generateToken w.tokenCalls), { w with tokenCalls := w.tokenCalls + 1 })

/-- A property read `user.field` on the result of `.first()`: it throws a
`TypeError` when the result is `undefined`. -/
def readField {α : Type} (user : Option Row) (field : Row → α) : Handler α :=
  match user with
  | some row => Handler.ret (field row)
  | none => Handler.throw .typeError

/-- A nullable text column as a JavaScript value. -/
def JsVal.ofColumn : Option String → JsVal
  | some s => .str s
  | none => .null

/-! ## The routes -/

/-- Body of `POST /api/users`: `req.body.user`. -/
structure SignUpBody where
  username : String
  email : String
  password : String

/-- Body of `POST /api/users/login`: `req.body.user`. -/
structure LoginBody where
  email : String
  password : String

/-- Handler of `GET /api/user` (lines 23-35). -/
def getUser (userId : Nat) : Handler Reply := do
  let user ← whereFirst (.firstWhereId userId) (fun r => r.id == userId)
  let email ← readField user Row.email
  let username ← readField user Row.username
  let token ← readField user Row.token
  return {
    statusCode := 200
    payload := .obj [("user", .obj [("email", .str email), ("username", .str username),
      ("token", .str token)])] }

/-- Handler of `POST /api/users` (lines 56-66).  It has no `return`: the value
handed back is `undefined`. -/
def signUp (u : Utils) (body : SignUpBody) : Handler Reply := do
  let token ← generateToken u
  let hashedPassword := u.hashString body.password
  insert { username := body.username, email := body.email, password := hashedPassword,
           token := token }
  return { statusCode := 200, payload := .undefined }

/-- Handler of `POST /api/users/login` (lines 86-103). -/
def login (u : Utils) (body : LoginBody) : Handler Reply := do
  let user ← whereFirst (.firstWhereEmail body.email) (fun r => r.email == body.email)
  let stored ← readField user Row.password
  let equal := u.stringIsAMatch body.password stored
  if !equal then
    return { statusCode := 401, payload := .obj [("message", .str "Invalid credentials")] }
  let username ← readField user Row.username
  let token ← readField user Row.token
  let email ← readField user Row.email
  return {
    statusCode := 200
    payload := .obj [("user", .obj [("username", .str username), ("token", .str token),
      ("email", .str email)])] }

/-- Handler of `PUT /api/user` (line 106): the request body is handed back. -/
def putUser (body : JsVal) : Handler Reply :=
  return { statusCode := 200, payload := body }

/-- The projection `select(['username', 'bio', 'image'])` of a row. -/
def Row.profile (r : Row) : JsVal :=
  .obj [("username", .str r.username), ("bio", .ofColumn r.bio), ("image", .ofColumn r.image)]

/-- Handler of `GET /api/profiles/:username` (lines 108-113). -/
def getProfile (username : String) : Handler Reply := do
  let user ← whereFirst (.firstProfileWhereUsername username) (fun r => r.username == username)
  let profile : JsVal :=
    match user with
    | some row => row.profile
    | none => .undefined
  return { statusCode := 200, payload := .obj [("profile", profile)] }

/-! ## Observations on payloads and worlds -/

mutual
/-- Whether a value has a property named `k`, at any depth. -/
def JsVal.hasKey (k : String) : JsVal → Bool
  | .obj fields => hasKeyFields k fields
  | .arr items => hasKeyItems k items
  | _ => false
/-- Whether one of the properties is named `k` or holds a value that has one. -/
def hasKeyFields (k : String) : List (String × JsVal) → Bool
  | [] => false
  | (name, v) :: rest => name == k || v.hasKey k || hasKeyFields k rest
/-- Whether one of the items has a property named `k`. -/
def hasKeyItems (k : String) : List JsVal → Bool
  | [] => false
  | v :: rest => v.hasKey k || hasKeyItems k rest
end

mutual
/-- The strings a value holds, at any depth (property names are not counted). -/
def JsVal.strings : JsVal → List String
  | .str s => [s]
  | .obj fields => stringsFields fields
  | .arr items => stringsItems items
  | _ => []
/-- The strings held by the values of the properties. -/
def stringsFields : List (String × JsVal) → List String
  | [] => []
  | (_, v) :: rest => v.strings ++ stringsFields rest
/-- The strings held by the items. -/
def stringsItems : List JsVal → List String
  | [] => []
  | v :: rest => v.strings ++ stringsItems rest
end

/-- The values of a row outside its password column: e-mail, username, token
and, when set, bio and image. -/
def Row.publicValues (r : Row) : List String :=
  [r.email, r.username, r.token] ++ r.bio.toList ++ r.image.toList

/-- Every string of the payload is the fixed login message or the e-mail,
username, token, bio or image of a row of the table. -/
def publicOnly (rows : List Row) (payload : JsVal) : Prop :=
  ∀ s ∈ payload.strings, s = "Invalid credentials" ∨ ∃ row ∈ rows, s ∈ row.publicValues

instance (rows : List Row) (payload : JsVal) : Decidable (publicOnly rows payload) := by
  unfold publicOnly
  infer_instance

/-- No stored password hash happens to equal the fixed login message or the
e-mail, username, token, bio or image of a row of the table. -/
def hashesApart (rows : List Row) : Prop :=
  ∀ r ∈ rows, r.password ≠ "Invalid credentials" ∧ ∀ row ∈ rows, r.password ∉ row.publicValues

instance (rows : List Row) : Decidable (hashesApart rows) := by
  unfold hashesApart
  infer_instance

/-- No string of the payload is the password hash of a row of the table. -/
def holdsNoHash (rows : List Row) (payload : JsVal) : Prop :=
  ∀ s ∈ payload.strings, ∀ r ∈ rows, s ≠ r.password

instance (rows : List Row) (payload : JsVal) : Decidable (holdsNoHash rows payload) := by
  unfold holdsNoHash
  infer_instance

/-- A row with its password column blanked. -/
def Row.withoutPassword (r : Row) : Row := { r with password := "" }

/-- The number of inserts among the calls issued on the table. -/
def insertCount : List Query → Nat
  | [] => 0
  | .insert _ :: rest => insertCount rest + 1
  | _ :: rest => insertCount rest

/-- The object `POST /api/users` hands to `insert` in world `w`. -/
def signUpValues (u : Utils) (body : SignUpBody) (w : World) : NewUser :=
  { username := body.username, email := body.email,
    password := u.hashString body.password, token := u.generateToken w.tokenCalls }

/-- The account of the worked examples: `admin`, whose password is `secret`. -/
def sampleRow : Row where
  id := 1
  username := "admin"
  email := "admin@gmail.com"
  password := "h:secret"
  token := "tok"
  bio := none
  image := none

/-- The table holding the single account of the worked examples. -/
def sampleWorld : World where
  rows := [sampleRow]
  log := []
  tokenCalls := 1

/-- The table of `sampleWorld` after a change of the stored password hash. -/
def rehashedWorld : World where
  rows := [{ sampleRow with password := "h:changed" }]
  log := []
  tokenCalls := 1

/-- A table whose single account has a username equal to its own password
hash: what `sampleUtils` stores for a sign-up of `h:secret` with the password
`secret`. -/
def coincidentWorld : World where
  rows := [{ id := 1, username := "h:secret", email := "eve@gmail.com", password := "h:secret",
             token := "tok", bio := none, image := none }]
  log := []
  tokenCalls := 1

/-- A world with an empty table and no call made yet. -/
def World.empty : World := { rows := [], log := [], tokenCalls := 0 }

/-- Sample utilities for the worked examples: the hash prefixes the text
with `h:`, and every token is `tok`. -/
def sampleUtils : Utils where
  hashString := fun s => "h:" ++ s
  stringIsAMatch := fun s h => h == "h:" ++ s
  generateToken := fun _ => "tok"

/-! ## How each handler runs -/

theorem login_run_found (u : Utils) (body : LoginBody) (w : World) (row : Row)
    (h : w.rows.find? (fun r => r.email == body.email) = some row) :
    login u body w =
      (if u.stringIsAMatch body.password row.password then
          .ok { statusCode := 200
                payload := .obj [("user", .obj [("username", .str row.username),
                  ("token", .str row.token), ("email", .str row.email)])] }
        else
          .ok { statusCode := 401, payload := .obj [("message", .str "Invalid credentials")] },
        { w with log := w.log ++ [.firstWhereEmail body.email] }) := by
  cases hm : u.stringIsAMatch body.password row.password <;>
    simp [login, whereFirst, readField, Handler.ret, bind, Handler.andThen, pure, h, hm]

theorem login_run_absent (u : Utils) (body : LoginBody) (w : World)
    (h : w.rows.find? (fun r => r.email == body.email) = none) :
    login u body w =
      (.error .typeError, { w with log := w.log ++ [.firstWhereEmail body.email] }) := by
  simp [login, whereFirst, readField, Handler.throw, bind, Handler.andThen, h]

theorem getUser_run_found (userId : Nat) (w : World) (row : Row)
    (h : w.rows.find? (fun r => r.id == userId) = some row) :
    getUser userId w =
      (.ok { statusCode := 200
             payload := .obj [("user", .obj [("email", .str row.email),
               ("username", .str row.username), ("token", .str row.token)])] },
        { w with log := w.log ++ [.firstWhereId userId] }) := by
  simp [getUser, whereFirst, readField, Handler.ret, bind, Handler.andThen, pure, h]

theorem getUser_run_absent (userId : Nat) (w : World)
    (h : w.rows.find? (fun r => r.id == userId) = none) :
    getUser userId w = (.error .typeError, { w with log := w.log ++ [.firstWhereId userId] }) := by
  simp [getUser, whereFirst, readField, Handler.throw, bind, Handler.andThen, h]

theorem getProfile_run (username : String) (w : World) :
    getProfile username w =
      (.ok { statusCode := 200
             payload := .obj [("profile",
               match w.rows.find? (fun r => r.username == username) with
               | some row => row.profile
               | none => .undefined)] },
        { w with log := w.log ++ [.firstProfileWhereUsername username] }) := by
  simp [getProfile, whereFirst, Handler.ret, bind, Handler.andThen, pure]

theorem signUp_run_fresh (u : Utils) (body : SignUpBody) (w : World)
    (h : w.rows.any (fun r => r.username == body.username || r.email == body.email) = false) :
    signUp u body w =
      (.ok { statusCode := 200, payload := .undefined },
        { rows := w.rows ++
            [{ id := freshId w.rows, username := body.username, email := body.email,
               password := u.hashString body.password,
               token := u.generateToken w.tokenCalls, bio := none, image := none }]
          log := w.log ++ [.insert (signUpValues u body w)]
          tokenCalls := w.tokenCalls + 1 }) := by
  simp [signUp, NextU.insert, generateToken, Handler.ret, bind, Handler.andThen, pure,
    signUpValues, h]

theorem signUp_run_duplicate (u : Utils) (body : SignUpBody) (w : World)
    (h : w.rows.any (fun r => r.username == body.username || r.email == body.email) = true) :
    signUp u body w =
      (.error .uniqueViolation,
        { rows := w.rows
          log := w.log ++ [.insert (signUpValues u body w)]
          tokenCalls := w.tokenCalls + 1 }) := by
  simp [signUp, NextU.insert, generateToken, bind, Handler.andThen, signUpValues, h]

theorem insertCount_append_insert (log : List Query) (values : NewUser) :
    insertCount (log ++ [.insert values]) = insertCount log + 1 := by
  induction log with
  | nil => rfl
  | cons q rest ih => cases q <;> simp [insertCount, ih]

/-! ## Login -/

/-- C1: when the row fetched for the e-mail of a login request fails
`stringIsAMatch` against the supplied password, the handler sets status 401
and returns exactly `{message: "Invalid credentials"}`, which holds no `user`
object. -/
theorem login_wrong_password (u : Utils) (body : LoginBody) (w : World) (row : Row)
    (hrow : w.rows.find? (fun r => r.email == body.email) = some row)
    (hno : u.stringIsAMatch body.password row.password = false) :
    (login u body w).1 =
        .ok { statusCode := 401, payload := .obj [("message", .str "Invalid credentials")] } ∧
      (JsVal.obj [("message", .str "Invalid credentials")]).hasKey "user" = false := by
  refine ⟨?_, by decide⟩
  rw [login_run_found u body w row hrow]
  simp [hno]

/-- Worked example of C1: a wrong guess at the password of `admin`. -/
theorem login_wrong_password_witness :
    sampleWorld.rows.find? (fun r => r.email == "admin@gmail.com") = some sampleRow ∧
      sampleUtils.stringIsAMatch "guess" sampleRow.password = false ∧
      (login sampleUtils { email := "admin@gmail.com", password := "guess" } sampleWorld).1 =
        .ok { statusCode := 401, payload := .obj [("message", .str "Invalid credentials")] } :=
  ⟨rfl, rfl,
    (login_wrong_password sampleUtils { email := "admin@gmail.com", password := "guess" }
      sampleWorld sampleRow rfl rfl).1⟩

/-- C2, evaluated at a failing input: a login whose e-mail matches no row of
the table does not answer 401; reading `user.password` on the missing row
throws a `TypeError`. -/
theorem login_unknown_email_throws :
    (login sampleUtils { email := "nobody@gmail.com", password := "secret" } World.empty).1 =
      .error .typeError := by
  rfl

/-- C3: when the row fetched for the e-mail of a login request passes
`stringIsAMatch` against the supplied password, the handler returns, with
status 200, `{user: {username, token, email}}` holding that row's username,
token and e-mail, and the table is left as it was. -/
theorem login_success (u : Utils) (body : LoginBody) (w : World) (row : Row)
    (hrow : w.rows.find? (fun r => r.email == body.email) = some row)
    (hyes : u.stringIsAMatch body.password row.password = true) :
    (login u body w).1 =
        .ok { statusCode := 200
              payload := .obj [("user", .obj [("username", .str row.username),
                ("token", .str row.token), ("email", .str row.email)])] } ∧
      (login u body w).2.rows = w.rows := by
  rw [login_run_found u body w row hrow]
  simp [hyes]

/-- Worked example of C3: `admin` logs in with the right password. -/
theorem login_success_witness :
    sampleWorld.rows.find? (fun r => r.email == "admin@gmail.com") = some sampleRow ∧
      sampleUtils.stringIsAMatch "secret" sampleRow.password = true ∧
      (login sampleUtils { email := "admin@gmail.com", password := "secret" } sampleWorld).1 =
        .ok { statusCode := 200
              payload := .obj [("user", .obj [("username", .str "admin"),
                ("token", .str "tok"), ("email", .str "admin@gmail.com")])] } ∧
      (login sampleUtils { email := "admin@gmail.com", password := "secret" }
        sampleWorld).2.rows = [sampleRow] :=
  ⟨rfl, rfl,
    login_success sampleUtils { email := "admin@gmail.com", password := "secret" }
      sampleWorld sampleRow rfl rfl⟩

/-! ## Authenticated profile fetch -/

/-- C7: when `req.userId` is the id of a stored row, `GET /api/user` issues the
lookup by that id and returns `{user: {email, username, token}}` holding
exactly the e-mail, username and token of the row found, and nothing else. -/
theorem getUser_found (userId : Nat) (w : World) (row : Row)
    (hrow : w.rows.find? (fun r => r.id == userId) = some row) :
    (getUser userId w).1 =
        .ok { statusCode := 200
              payload := .obj [("user", .obj [("email", .str row.email),
                ("username", .str row.username), ("token", .str row.token)])] } ∧
      row.id = userId ∧
      (getUser userId w).2.log = w.log ++ [.firstWhereId userId] ∧
      (getUser userId w).2.rows = w.rows := by
  rw [getUser_run_found userId w row hrow]
  refine ⟨rfl, ?_, rfl, rfl⟩
  have := List.find?_some hrow
  simpa using this

/-- Worked example of C7: the profile of the account with id 1. -/
theorem getUser_found_witness :
    sampleWorld.rows.find? (fun r => r.id == 1) = some sampleRow ∧
      (getUser 1 sampleWorld).1 =
        .ok { statusCode := 200
              payload := .obj [("user", .obj [("email", .str "admin@gmail.com"),
                ("username", .str "admin"), ("token", .str "tok")])] } ∧
      (getUser 1 sampleWorld).2.log = [.firstWhereId 1] :=
  ⟨rfl, (getUser_found 1 sampleWorld sampleRow rfl).1,
    (getUser_found 1 sampleWorld sampleRow rfl).2.2.1⟩

/-! ## Sign-up -/

/-- C4, evaluated at a failing input: the sign-up of `admin` on an empty table
inserts the row, and the handler then returns `undefined`, not
`{user: {username, email, token}}`. -/
theorem signUp_returns_undefined :
    (signUp sampleUtils { username := "admin", email := "admin@gmail.com", password := "secret" }
        World.empty).1 = .ok { statusCode := 200, payload := .undefined } ∧
      (signUp sampleUtils { username := "admin", email := "admin@gmail.com", password := "secret" }
        World.empty).2.rows =
        [{ id := 1, username := "admin", email := "admin@gmail.com", password := "h:secret",
           token := "tok", bio := none, image := none }] := by
  exact ⟨rfl, rfl⟩

/-- C5: every sign-up issues exactly one call on the table, the insert of
`{username, email, password: hashString(password), token: generateToken()}`.
The table afterwards is either the old one followed by a row with exactly
those values, or (insert rejected) the old one; so whenever the hash differs
from the plaintext, no row written by the request stores the plaintext. -/
theorem signUp_inserts_hashed_row (u : Utils) (body : SignUpBody) (w : World) :
    (signUp u body w).2.log =
        w.log ++ [.insert { username := body.username, email := body.email,
                            password := u.hashString body.password,
                            token := u.generateToken w.tokenCalls }] ∧
      insertCount (signUp u body w).2.log = insertCount w.log + 1 ∧
      (((signUp u body w).1 = .ok { statusCode := 200, payload := .undefined } ∧
          (signUp u body w).2.rows = w.rows ++
            [{ id := freshId w.rows, username := body.username, email := body.email,
               password := u.hashString body.password,
               token := u.generateToken w.tokenCalls, bio := none, image := none }]) ∨
        ((signUp u body w).1 = .error .uniqueViolation ∧ (signUp u body w).2.rows = w.rows)) ∧
      (u.hashString body.password ≠ body.password →
        ∀ r ∈ (signUp u body w).2.rows, r ∈ w.rows ∨ r.password ≠ body.password) := by
  cases h : w.rows.any (fun r => r.username == body.username || r.email == body.email)
  · rw [signUp_run_fresh u body w h]
    refine ⟨rfl, insertCount_append_insert _ _, Or.inl ⟨rfl, rfl⟩, ?_⟩
    intro hne r hr
    rcases List.mem_append.mp hr with hold | hnew
    · exact Or.inl hold
    · right
      rw [List.mem_singleton.mp hnew]
      exact hne
  · rw [signUp_run_duplicate u body w h]
    refine ⟨rfl, insertCount_append_insert _ _, Or.inr ⟨rfl, rfl⟩, ?_⟩
    intro _ r hr
    exact Or.inl hr

/-- Worked example of C5: the sign-up of `admin` on an empty table. -/
theorem signUp_inserts_hashed_row_witness :
    sampleUtils.hashString "secret" ≠ "secret" ∧
      (signUp sampleUtils { username := "admin", email := "admin@gmail.com", password := "secret" }
        World.empty).2.log =
        [.insert { username := "admin", email := "admin@gmail.com", password := "h:secret",
                   token := "tok" }] ∧
      ∀ r ∈ (signUp sampleUtils
          { username := "admin", email := "admin@gmail.com", password := "secret" }
          World.empty).2.rows, r ∈ World.empty.rows ∨ r.password ≠ "secret" :=
  ⟨by decide,
    (signUp_inserts_hashed_row sampleUtils
      { username := "admin", email := "admin@gmail.com", password := "secret" } World.empty).1,
    (signUp_inserts_hashed_row sampleUtils
      { username := "admin", email := "admin@gmail.com", password := "secret" }
      World.empty).2.2.2 (by decide)⟩

theorem any_false_of_fresh (username email : String) (rows : List Row)
    (hfresh : ∀ r ∈ rows, r.email ≠ email ∧ r.username ≠ username) :
    rows.any (fun r => r.username == username || r.email == email) = false := by
  rw [List.any_eq_false]
  intro r hr
  have := hfresh r hr
  simp [this.1, this.2]

theorem any_true_of_duplicate (username email : String) (rows : List Row)
    (hdup : ∃ r ∈ rows, r.email = email ∨ r.username = username) :
    rows.any (fun r => r.username == username || r.email == email) = true := by
  obtain ⟨r, hr, h⟩ := hdup
  rw [List.any_eq_true]
  refine ⟨r, hr, ?_⟩
  rcases h with h | h <;> simp [h]

/-- C6: from a table with no row of that e-mail or username, and with
utilities such that a password matches its own hash and the generated token is
not empty, a sign-up followed by a login with the same e-mail and password
gives status 200 and `{user: {username, token, email}}` carrying that
username, that e-mail and the non-empty token generated at sign-up. -/
theorem signUp_then_login (u : Utils) (username email password : String) (w : World)
    (hfresh : ∀ r ∈ w.rows, r.email ≠ email ∧ r.username ≠ username)
    (hmatch : u.stringIsAMatch password (u.hashString password) = true)
    (htoken : u.generateToken w.tokenCalls ≠ "") :
    ∃ token : String,
      token = u.generateToken w.tokenCalls ∧ token ≠ "" ∧
      (login u { email := email, password := password }
          (signUp u { username := username, email := email, password := password } w).2).1 =
        .ok { statusCode := 200
              payload := .obj [("user", .obj [("username", .str username),
                ("token", .str token), ("email", .str email)])] } := by
  refine ⟨u.generateToken w.tokenCalls, rfl, htoken, ?_⟩
  rw [signUp_run_fresh u ⟨username, email, password⟩ w (any_false_of_fresh username email _ hfresh)]
  have hnone : w.rows.find? (fun r => r.email == email) = none := by
    rw [List.find?_eq_none]
    intro r hr
    simp [(hfresh r hr).1]
  rw [login_run_found u ⟨email, password⟩ _
    { id := freshId w.rows, username := username, email := email,
      password := u.hashString password, token := u.generateToken w.tokenCalls,
      bio := none, image := none }
    (by simp [List.find?_append, hnone])]
  simp [hmatch]

/-- Worked example of C6: `admin` signs up on an empty table and logs in. -/
theorem signUp_then_login_witness :
    (∀ r ∈ World.empty.rows, r.email ≠ "admin@gmail.com" ∧ r.username ≠ "admin") ∧
      sampleUtils.stringIsAMatch "secret" (sampleUtils.hashString "secret") = true ∧
      sampleUtils.generateToken World.empty.tokenCalls ≠ "" ∧
      ∃ token : String,
        token = sampleUtils.generateToken World.empty.tokenCalls ∧ token ≠ "" ∧
        (login sampleUtils { email := "admin@gmail.com", password := "secret" }
            (signUp sampleUtils
              { username := "admin", email := "admin@gmail.com", password := "secret" }
              World.empty).2).1 =
          .ok { statusCode := 200
                payload := .obj [("user", .obj [("username", .str "admin"),
                  ("token", .str token), ("email", .str "admin@gmail.com")])] } :=
  ⟨fun _ hr => absurd hr (List.not_mem_nil _), rfl, by decide,
    signUp_then_login sampleUtils "admin" "admin@gmail.com" "secret" World.empty
      (fun _ hr => absurd hr (List.not_mem_nil _)) rfl (by decide)⟩

/-- C10 as amended: a sign-up that reuses the e-mail or the username of a
stored row is rejected by the table: the handler ends with the uniqueness
error thrown by the insert, and the rows of the table are unchanged. -/
theorem signUp_duplicate_rejected (u : Utils) (body : SignUpBody) (w : World)
    (hdup : ∃ r ∈ w.rows, r.email = body.email ∨ r.username = body.username) :
    (signUp u body w).1 = .error .uniqueViolation ∧ (signUp u body w).2.rows = w.rows := by
  rw [signUp_run_duplicate u body w (any_true_of_duplicate body.username body.email _ hdup)]
  exact ⟨rfl, rfl⟩

/-- Worked example of C10: a second sign-up with the e-mail of `admin`. -/
theorem signUp_duplicate_rejected_witness :
    (∃ r ∈ sampleWorld.rows, r.email = "admin@gmail.com" ∨ r.username = "other") ∧
      (signUp sampleUtils { username := "other", email := "admin@gmail.com", password := "pw" }
        sampleWorld).1 = .error .uniqueViolation ∧
      (signUp sampleUtils { username := "other", email := "admin@gmail.com", password := "pw" }
        sampleWorld).2.rows = [sampleRow] :=
  ⟨⟨sampleRow, List.mem_singleton.mpr rfl, Or.inl rfl⟩,
    signUp_duplicate_rejected sampleUtils
      { username := "other", email := "admin@gmail.com", password := "pw" } sampleWorld
      ⟨sampleRow, List.mem_singleton.mpr rfl, Or.inl rfl⟩⟩

/-- C10 as stated fails: the sign-up that reuses the e-mail of `admin` gets no
4xx reply from the handler; the error of the table is thrown as it is. -/
theorem signUp_duplicate_not_4xx :
    (signUp sampleUtils { username := "other", email := "admin@gmail.com", password := "pw" }
        sampleWorld).1 = .error .uniqueViolation ∧
      ¬ ∃ reply : Reply, 400 ≤ reply.statusCode ∧ reply.statusCode < 500 ∧
        (signUp sampleUtils { username := "other", email := "admin@gmail.com", password := "pw" }
          sampleWorld).1 = .ok reply := by
  have h : (signUp sampleUtils { username := "other", email := "admin@gmail.com", password := "pw" }
        sampleWorld).1 = .error .uniqueViolation := rfl
  refine ⟨h, ?_⟩
  rintro ⟨reply, -, -, hr⟩
  rw [h] at hr
  cases hr

/-! ## Absent rows on the two profile reads -/

/-- C8 as amended: on a username that matches no stored row,
`GET /api/profiles/:username` does not throw; it keeps the default status 200,
returns `{profile: undefined}` and leaves the table as it was. -/
theorem getProfile_unknown_username (username : String) (w : World)
    (habsent : ∀ r ∈ w.rows, r.username ≠ username) :
    (getProfile username w).1 =
        .ok { statusCode := 200, payload := .obj [("profile", .undefined)] } ∧
      (getProfile username w).2.rows = w.rows := by
  have hnone : w.rows.find? (fun r => r.username == username) = none := by
    rw [List.find?_eq_none]
    intro r hr
    simp [habsent r hr]
  rw [getProfile_run, hnone]
  exact ⟨rfl, rfl⟩

/-- Worked example of C8: the public profile of a name no row has. -/
theorem getProfile_unknown_username_witness :
    (∀ r ∈ sampleWorld.rows, r.username ≠ "ghost") ∧
      (getProfile "ghost" sampleWorld).1 =
        .ok { statusCode := 200, payload := .obj [("profile", .undefined)] } ∧
      (getProfile "ghost" sampleWorld).2.rows = [sampleRow] :=
  ⟨fun r hr => by rw [List.mem_singleton.mp hr]; decide,
    getProfile_unknown_username "ghost" sampleWorld
      (fun r hr => by rw [List.mem_singleton.mp hr]; decide)⟩

/-- C8 as stated fails: on an empty table neither profile read answers 404;
`GET /api/profiles/ghost` returns `{profile: undefined}` with status 200 and
`GET /api/user` throws a `TypeError`. -/
theorem profile_reads_not_404 :
    (getProfile "ghost" World.empty).1 =
        .ok { statusCode := 200, payload := .obj [("profile", .undefined)] } ∧
      (getUser 7 World.empty).1 = .error .typeError ∧
      (¬ ∃ payload : JsVal,
        (getProfile "ghost" World.empty).1 = .ok { statusCode := 404, payload := payload }) ∧
      ¬ ∃ payload : JsVal,
        (getUser 7 World.empty).1 = .ok { statusCode := 404, payload := payload } := by
  have hp : (getProfile "ghost" World.empty).1 =
      .ok { statusCode := 200, payload := .obj [("profile", .undefined)] } := rfl
  have hu : (getUser 7 World.empty).1 = .error .typeError := rfl
  refine ⟨hp, hu, ?_, ?_⟩
  · rintro ⟨payload, h⟩
    rw [hp] at h
    injection h with h
    injection h with hs _
    exact absurd hs (by decide)
  · rintro ⟨payload, h⟩
    rw [hu] at h
    cases h

/-! ## The password column and the replies -/

theorem find?_withoutPassword (cond : Row → Bool)
    (hcond : ∀ r, cond r.withoutPassword = cond r) :
    ∀ l1 l2 : List Row, l1.map Row.withoutPassword = l2.map Row.withoutPassword →
      (l1.find? cond).map Row.withoutPassword = (l2.find? cond).map Row.withoutPassword := by
  intro l1
  induction l1 with
  | nil =>
    intro l2 h
    cases l2 with
    | nil => rfl
    | cons b l2 => simp at h
  | cons a l1 ih =>
    intro l2 h
    cases l2 with
    | nil => simp at h
    | cons b l2 =>
      simp only [List.map_cons, List.cons.injEq] at h
      have hab : cond a = cond b := by rw [← hcond a, ← hcond b, h.1]
      cases hb : cond b
      · simp [List.find?_cons, hab, hb, ih l2 h.2]
      · simp [List.find?_cons, hab, hb, h.1]

theorem getUser_hides_password (userId : Nat) (w : World) (reply : Reply)
    (h : (getUser userId w).1 = .ok reply) : reply.payload.hasKey "password" = false := by
  cases hf : w.rows.find? (fun r => r.id == userId) with
  | none =>
    rw [getUser_run_absent userId w hf] at h
    cases h
  | some row =>
    rw [getUser_run_found userId w row hf] at h
    injection h with h
    subst h
    simp [JsVal.hasKey, hasKeyFields]

theorem login_hides_password (u : Utils) (body : LoginBody) (w : World) (reply : Reply)
    (h : (login u body w).1 = .ok reply) : reply.payload.hasKey "password" = false := by
  cases hf : w.rows.find? (fun r => r.email == body.email) with
  | none =>
    rw [login_run_absent u body w hf] at h
    cases h
  | some row =>
    rw [login_run_found u body w row hf] at h
    cases hm : u.stringIsAMatch body.password row.password <;>
      · simp only [hm] at h
        injection h with h
        subst h
        simp [JsVal.hasKey, hasKeyFields]

theorem login_payload_origin (u : Utils) (body : LoginBody) (w : World) (reply : Reply)
    (h : (login u body w).1 = .ok reply) :
    reply.payload = .obj [("message", .str "Invalid credentials")] ∨
      ∃ row ∈ w.rows, reply.payload =
        .obj [("user", .obj [("username", .str row.username), ("token", .str row.token),
          ("email", .str row.email)])] := by
  cases hf : w.rows.find? (fun r => r.email == body.email) with
  | none =>
    rw [login_run_absent u body w hf] at h
    cases h
  | some row =>
    rw [login_run_found u body w row hf] at h
    cases hm : u.stringIsAMatch body.password row.password
    · simp only [hm] at h
      injection h with h
      subst h
      exact Or.inl rfl
    · simp only [hm] at h
      injection h with h
      subst h
      exact Or.inr ⟨row, List.mem_of_find?_eq_some hf, rfl⟩

theorem getProfile_hides_password (username : String) (w : World) (reply : Reply)
    (h : (getProfile username w).1 = .ok reply) : reply.payload.hasKey "password" = false := by
  rw [getProfile_run] at h
  injection h with h
  subst h
  cases w.rows.find? (fun r => r.username == username) with
  | none => simp [JsVal.hasKey, hasKeyFields]
  | some row => cases hb : row.bio <;> cases hi : row.image <;>
      simp [JsVal.hasKey, hasKeyFields, Row.profile, JsVal.ofColumn, hb, hi]

theorem signUp_payload_undefined (u : Utils) (body : SignUpBody) (w : World) (reply : Reply)
    (h : (signUp u body w).1 = .ok reply) : reply.payload = .undefined := by
  cases hf : w.rows.any (fun r => r.username == body.username || r.email == body.email) with
  | false =>
    rw [signUp_run_fresh u body w hf] at h
    injection h with h
    subst h
    rfl
  | true =>
    rw [signUp_run_duplicate u body w hf] at h
    cases h

theorem publicOnly_of_row (rows : List Row) (row : Row) (hrow : row ∈ rows) (payload : JsVal)
    (h : ∀ s ∈ payload.strings, s ∈ row.publicValues) : publicOnly rows payload :=
  fun s hs => Or.inr ⟨row, hrow, h s hs⟩

theorem holdsNoHash_of_publicOnly (rows : List Row) (payload : JsVal)
    (hp : publicOnly rows payload) (ha : hashesApart rows) : holdsNoHash rows payload := by
  intro s hs r hr heq
  rcases hp s hs with hmsg | ⟨row, hrow, hmem⟩
  · exact (ha r hr).1 (by rw [← heq]; exact hmsg)
  · exact (ha r hr).2 row hrow (by rw [← heq]; exact hmem)

theorem getUser_publicOnly (userId : Nat) (w : World) (reply : Reply)
    (h : (getUser userId w).1 = .ok reply) : publicOnly w.rows reply.payload := by
  cases hf : w.rows.find? (fun r => r.id == userId) with
  | none =>
    rw [getUser_run_absent userId w hf] at h
    cases h
  | some row =>
    rw [getUser_run_found userId w row hf] at h
    injection h with h
    subst h
    refine publicOnly_of_row _ row (List.mem_of_find?_eq_some hf) _ ?_
    intro s hs
    simp only [JsVal.strings, stringsFields, List.append_nil, List.singleton_append,
      List.mem_cons, List.mem_singleton, List.not_mem_nil, or_false] at hs
    simp only [Row.publicValues, List.append_assoc, List.cons_append, List.nil_append,
      List.mem_cons, List.mem_append]
    rcases hs with hs | hs | hs <;> simp [hs]

theorem login_publicOnly (u : Utils) (body : LoginBody) (w : World) (reply : Reply)
    (h : (login u body w).1 = .ok reply) : publicOnly w.rows reply.payload := by
  rcases login_payload_origin u body w reply h with hp | ⟨row, hrow, hp⟩
  · rw [hp]
    intro s hs
    left
    simpa [JsVal.strings, stringsFields] using hs
  · rw [hp]
    refine publicOnly_of_row _ row hrow _ ?_
    intro s hs
    simp only [JsVal.strings, stringsFields, List.append_nil, List.singleton_append,
      List.mem_cons, List.mem_singleton, List.not_mem_nil, or_false] at hs
    simp only [Row.publicValues, List.append_assoc, List.cons_append, List.nil_append,
      List.mem_cons, List.mem_append]
    rcases hs with hs | hs | hs <;> simp [hs]

theorem getProfile_publicOnly (username : String) (w : World) (reply : Reply)
    (h : (getProfile username w).1 = .ok reply) : publicOnly w.rows reply.payload := by
  rw [getProfile_run] at h
  injection h with h
  subst h
  cases hf : w.rows.find? (fun r => r.username == username) with
  | none =>
    intro s hs
    simp [JsVal.strings, stringsFields] at hs
  | some row =>
    refine publicOnly_of_row _ row (List.mem_of_find?_eq_some hf) _ ?_
    intro s hs
    cases hb : row.bio <;> cases hi : row.image <;>
      simp [JsVal.strings, stringsFields, Row.profile, JsVal.ofColumn, hb, hi] at hs <;>
      simp [Row.publicValues, hb, hi] <;> tauto

theorem getUser_ignores_password (userId : Nat) (w1 w2 : World)
    (h : w1.rows.map Row.withoutPassword = w2.rows.map Row.withoutPassword) :
    (getUser userId w1).1 = (getUser userId w2).1 := by
  have hf := find?_withoutPassword (fun r => r.id == userId) (fun _ => rfl) _ _ h
  cases h1 : w1.rows.find? (fun r => r.id == userId) with
  | none =>
    cases h2 : w2.rows.find? (fun r => r.id == userId) with
    | none => rw [getUser_run_absent userId w1 h1, getUser_run_absent userId w2 h2]
    | some r2 => simp [h1, h2] at hf
  | some r1 =>
    cases h2 : w2.rows.find? (fun r => r.id == userId) with
    | none => simp [h1, h2] at hf
    | some r2 =>
      rw [h1, h2] at hf
      simp only [Option.map_some', Option.some.injEq] at hf
      have he : r1.email = r2.email :=
        show r1.withoutPassword.email = r2.withoutPassword.email from congrArg Row.email hf
      have hn : r1.username = r2.username :=
        show r1.withoutPassword.username = r2.withoutPassword.username from congrArg Row.username hf
      have ht : r1.token = r2.token :=
        show r1.withoutPassword.token = r2.withoutPassword.token from congrArg Row.token hf
      rw [getUser_run_found userId w1 r1 h1, getUser_run_found userId w2 r2 h2, he, hn, ht]

theorem getProfile_ignores_password (username : String) (w1 w2 : World)
    (h : w1.rows.map Row.withoutPassword = w2.rows.map Row.withoutPassword) :
    (getProfile username w1).1 = (getProfile username w2).1 := by
  have hf := find?_withoutPassword (fun r => r.username == username) (fun _ => rfl) _ _ h
  rw [getProfile_run, getProfile_run]
  cases h1 : w1.rows.find? (fun r => r.username == username) with
  | none =>
    cases h2 : w2.rows.find? (fun r => r.username == username) with
    | none => rfl
    | some r2 => simp [h1, h2] at hf
  | some r1 =>
    cases h2 : w2.rows.find? (fun r => r.username == username) with
    | none => simp [h1, h2] at hf
    | some r2 =>
      rw [h1, h2] at hf
      simp only [Option.map_some', Option.some.injEq] at hf
      have hn : r1.username = r2.username :=
        show r1.withoutPassword.username = r2.withoutPassword.username from congrArg Row.username hf
      have hb : r1.bio = r2.bio :=
        show r1.withoutPassword.bio = r2.withoutPassword.bio from congrArg Row.bio hf
      have hi : r1.image = r2.image :=
        show r1.withoutPassword.image = r2.withoutPassword.image from congrArg Row.image hf
      simp [Row.profile, hn, hb, hi]

/-- C9 as amended: a reply of `GET /api/user`, `POST /api/users/login` or
`GET /api/profiles/:username` has no property named `password`, and every
string in it is the fixed login message or the e-mail, username, token, bio or
image of a stored row, so it holds no stored password hash whenever no stored
hash equals that message or one of those values; a login reply is the fixed
message or is built from the username, token and e-mail of a stored row; the
reply of `POST /api/users` is `undefined`; `PUT /api/user` hands back the
request body whatever the table holds; and two tables that differ only in the
password column give the same `GET /api/user` and
`GET /api/profiles/:username` replies. -/
theorem replies_hide_password (u : Utils) (w : World) :
    (∀ userId reply, (getUser userId w).1 = .ok reply →
        reply.payload.hasKey "password" = false ∧ publicOnly w.rows reply.payload ∧
        (hashesApart w.rows → holdsNoHash w.rows reply.payload)) ∧
      (∀ body reply, (signUp u body w).1 = .ok reply → reply.payload = .undefined) ∧
      (∀ body reply, (login u body w).1 = .ok reply →
        reply.payload.hasKey "password" = false ∧ publicOnly w.rows reply.payload ∧
        (hashesApart w.rows → holdsNoHash w.rows reply.payload) ∧
        (reply.payload = .obj [("message", .str "Invalid credentials")] ∨
          ∃ row ∈ w.rows, reply.payload =
            .obj [("user", .obj [("username", .str row.username), ("token", .str row.token),
              ("email", .str row.email)])])) ∧
      (∀ username reply, (getProfile username w).1 = .ok reply →
        reply.payload.hasKey "password" = false ∧ publicOnly w.rows reply.payload ∧
        (hashesApart w.rows → holdsNoHash w.rows reply.payload)) ∧
      (∀ body, putUser body w = (.ok { statusCode := 200, payload := body }, w)) ∧
      ∀ w2 : World, w.rows.map Row.withoutPassword = w2.rows.map Row.withoutPassword →
        (∀ userId, (getUser userId w).1 = (getUser userId w2).1) ∧
        ∀ username, (getProfile username w).1 = (getProfile username w2).1 :=
  ⟨fun userId reply h =>
     ⟨getUser_hides_password userId w reply h, getUser_publicOnly userId w reply h,
       holdsNoHash_of_publicOnly _ _ (getUser_publicOnly userId w reply h)⟩,
   fun body reply h => signUp_payload_undefined u body w reply h,
   fun body reply h =>
     ⟨login_hides_password u body w reply h, login_publicOnly u body w reply h,
       holdsNoHash_of_publicOnly _ _ (login_publicOnly u body w reply h),
       login_payload_origin u body w reply h⟩,
   fun username reply h =>
     ⟨getProfile_hides_password username w reply h, getProfile_publicOnly username w reply h,
       holdsNoHash_of_publicOnly _ _ (getProfile_publicOnly username w reply h)⟩,
   fun _ => rfl,
   fun w2 h => ⟨fun userId => getUser_ignores_password userId w w2 h,
     fun username => getProfile_ignores_password username w w2 h⟩⟩

/-- Worked example of C9: the replies on the sample table, whose stored hash
equals no public value, before and after a change of that hash. -/
theorem replies_hide_password_witness :
    (login sampleUtils { email := "admin@gmail.com", password := "secret" } sampleWorld).1 =
        .ok { statusCode := 200
              payload := .obj [("user", .obj [("username", .str "admin"),
                ("token", .str "tok"), ("email", .str "admin@gmail.com")])] } ∧
      (JsVal.obj [("user", .obj [("username", .str "admin"),
        ("token", .str "tok"), ("email", .str "admin@gmail.com")])]).hasKey "password" = false ∧
      hashesApart sampleWorld.rows ∧
      holdsNoHash sampleWorld.rows (JsVal.obj [("user", .obj [("username", .str "admin"),
        ("token", .str "tok"), ("email", .str "admin@gmail.com")])]) ∧
      sampleWorld.rows.map Row.withoutPassword = rehashedWorld.rows.map Row.withoutPassword ∧
      (getUser 1 sampleWorld).1 = (getUser 1 rehashedWorld).1 ∧
      (getProfile "admin" sampleWorld).1 = (getProfile "admin" rehashedWorld).1 :=
  ⟨rfl,
    ((replies_hide_password sampleUtils sampleWorld).2.2.1
      { email := "admin@gmail.com", password := "secret" } _ rfl).1,
    by decide,
    ((replies_hide_password sampleUtils sampleWorld).2.2.1
      { email := "admin@gmail.com", password := "secret" } _ rfl).2.2.1 (by decide),
    rfl,
    ((replies_hide_password sampleUtils sampleWorld).2.2.2.2.2 rehashedWorld rfl).1 1,
    ((replies_hide_password sampleUtils sampleWorld).2.2.2.2.2 rehashedWorld rfl).2 "admin"⟩

/-- C9 as stated fails twice.  On `PUT /api/user` a request body with a
`password` property comes back in the reply.  And a table can hold a row whose
password hash equals its username (here after the sign-up of `h:secret` with
the password `secret`): the reply of `GET /api/user` for that row then holds a
string equal to a stored password hash. -/
theorem putUser_echoes_password :
    ((putUser (.obj [("user", .obj [("password", .str "secret")])]) World.empty).1 =
        .ok { statusCode := 200
              payload := .obj [("user", .obj [("password", .str "secret")])] } ∧
      (JsVal.obj [("user", .obj [("password", .str "secret")])]).hasKey "password" = true) ∧
      ((signUp sampleUtils { username := "h:secret", email := "eve@gmail.com", password := "secret" }
          World.empty).2.rows = coincidentWorld.rows ∧
        (getUser 1 coincidentWorld).1 =
          .ok { statusCode := 200
                payload := .obj [("user", .obj [("email", .str "eve@gmail.com"),
                  ("username", .str "h:secret"), ("token", .str "tok")])] } ∧
        ¬ holdsNoHash coincidentWorld.rows
            (.obj [("user", .obj [("email", .str "eve@gmail.com"),
              ("username", .str "h:secret"), ("token", .str "tok")])])) := by
  exact ⟨⟨rfl, by decide⟩, rfl, rfl, by decide⟩

end NextU
